import Mathlib

/-!
Shallow embedding of the `lamp-client` repository (files `lamp.py`,
`switch.py`, `client.py`) and verification of its specification claims.

Python integers are embedded as `ℤ`; the brightness float as `ℚ` (only
order comparisons with `0.0` and `1.0` occur, which agree with rational
arithmetic on all representable values); Python 3-tuples as products;
exceptions as an explicit "raised" flag with the state the object retains
when the exception propagates; `random.choice` as a function of an
arbitrary draw index.  For a positive power-of-two divisor, Python's
`>> k` is Euclidean division by `2 ^ k` and `& 0xff` is `% 256`
(both also on negative operands), so `Int.ediv`/`Int.emod` embed them
exactly.
-/

namespace LampClient

/-- A Python `(red, green, blue)` tuple of ints. -/
abbrev Color := ℤ × ℤ × ℤ

/-- One step of the loop body of `validate_color` in `lamp.py`:
`if val < 0 or val > 255: return False`. -/
def channelOk (val : ℤ) : Bool :=
  if val < 0 ∨ val > 255 then false else true

/-- `validate_color` from `lamp.py`: checks each channel of the tuple in
order, returning `False` at the first out-of-range channel. -/
def validate_color (rgb : Color) : Bool :=
  channelOk rgb.1 && channelOk rgb.2.1 && channelOk rgb.2.2

/-- `validate_brightness` from `lamp.py`. -/
def validate_brightness (brightness : ℚ) : Bool :=
  if brightness < 0 ∨ brightness > 1 then false else true

/-- The local list `colors` of `suggest_rgb` in `lamp.py`: Adafruit's
13-entry palette. -/
def colors : List Color :=
  [ (255, 100, 0)    -- Amber
  , (50, 255, 255)   -- Aqua
  , (255, 255, 255)  -- White
  , (0, 0, 255)      -- Blue
  , (0, 255, 255)    -- Cyan
  , (255, 222, 30)   -- Gold
  , (0, 255, 0)      -- Green
  , (0, 255, 40)     -- Jade
  , (255, 0, 20)     -- Magenta
  , (253, 245, 230)  -- Old Lace
  , (255, 40, 0)     -- Orange
  , (242, 90, 255)   -- Pink
  , (180, 0, 255)    -- Purple
  ]

/-- `random.choice(seq)`, modelled as a function of the random draw: the
draw is an arbitrary natural `i`, reduced modulo the length; on an empty
sequence `random.choice` raises (`none`). -/
def choice (seq : List Color) (i : ℕ) : Option Color :=
  seq[i % seq.length]?

/-- `suggest_rgb` from `lamp.py`:
`random.choice([color for color in colors if color != current])`.
Python `!=` on tuples of ints is structural value equality. -/
def suggest_rgb (current : Color) (i : ℕ) : Option Color :=
  choice (colors.filter (fun color => decide (color ≠ current))) i

/-- `rgb_encode` from `lamp.py`: `red`, then `(enc << 8) + green`, then
`(enc << 8) + blue`; `<< 8` on a Python int is multiplication by 256. -/
def rgb_encode (rgb : Color) : ℤ :=
  (rgb.1 * 256 + rgb.2.1) * 256 + rgb.2.2

/-- `rgb_decode` from `lamp.py`:
`((v >> 16) & 0xff, (v >> 8) & 0xff, v & 0xff)`; on Python ints
`>> k` is floor (= Euclidean, divisor positive) division by `2 ^ k`
and `& 0xff` is the nonnegative remainder modulo 256, which are `ℤ`'s
`/` and `%`. -/
def rgb_decode (encoded_rgb : ℤ) : Color :=
  ((encoded_rgb / 65536) % 256, (encoded_rgb / 256) % 256, encoded_rgb % 256)

/-- The stored fields of a `Console` lamp (`lamp.py`): `self.rgb`,
`self.brightness`, `self.state`.  The `print` calls are I/O only. -/
structure ConsoleState where
  rgb : Color
  brightness : ℚ
  state : Bool
deriving DecidableEq

namespace Console

/-- `Console.__init__`: validates the color, then the brightness, raising
(`Except.error`) before any subsequent field would be stored; on success
the three fields are stored. -/
def init (rgb : Color) (brightness : ℚ) (state : Bool) :
    Except String ConsoleState :=
  if ¬ validate_color rgb then
    Except.error "Each color must be in range 0:255"
  else if ¬ validate_brightness brightness then
    Except.error "Brightness must but in range 0.0:1.0"
  else
    Except.ok ⟨rgb, brightness, state⟩

/-- `Console.set_color`: result is the state the object holds after the
call, paired with whether the exception was raised.  The `raise` happens
before the assignment `self.rgb = rgb`, so on raise the object keeps its
prior state. -/
def set_color (rgb : Color) (st : ConsoleState) : ConsoleState × Bool :=
  if ¬ validate_color rgb then (st, true) else ({ st with rgb := rgb }, false)

/-- `Console.get_color`: returns `self.rgb`, no mutation. -/
def get_color (st : ConsoleState) : Color :=
  st.rgb

/-- `Console.set_brightness`: same raise-before-store shape as
`set_color`. -/
def set_brightness (brightness : ℚ) (st : ConsoleState) :
    ConsoleState × Bool :=
  if ¬ validate_brightness brightness then (st, true)
  else ({ st with brightness := brightness }, false)

/-- `Console.get_brightness`. -/
def get_brightness (st : ConsoleState) : ℚ :=
  st.brightness

/-- `Console.set_state`: unconditionally stores the boolean. -/
def set_state (state : Bool) (st : ConsoleState) : ConsoleState :=
  { st with state := state }

/-- `Console.get_state`: returns `self.state`, no mutation. -/
def get_state (st : ConsoleState) : Bool :=
  st.state

/-- `Console.flash`.  The guard `if not self.get_state:` tests the bound
method object itself — the call parentheses are missing in the source — and
a bound method is always truthy, so `not self.get_state` is `False` and the
`self.set_state(True)` branch is dead code.  The loop body runs
`set_state(False)` then `set_state(True)` once per `i in range(n_flashes)`. -/
def flash (n_flashes : ℕ) (st : ConsoleState) : ConsoleState :=
  (List.range n_flashes).foldl
    (fun acc _ => set_state true (set_state false acc)) st

/-- `Console.pulsate`: prints and sleeps only; no stored field is read or
written. -/
def pulsate (_n_pulsations : ℕ) (_n_seconds : ℕ) (st : ConsoleState) :
    ConsoleState :=
  st

end Console

/-- The public mutating operations of a constructed `Console` lamp, for
quantifying over call sequences. -/
inductive LampOp where
  | setColor (rgb : Color)
  | setBrightness (brightness : ℚ)
  | setState (state : Bool)
  | flash (n_flashes : ℕ)
  | pulsate (n_pulsations : ℕ) (n_seconds : ℕ)

/-- The state the lamp object holds after one public call: a raising call
leaves the prior state in place (the exception propagates past the
assignment). -/
def applyOp (st : ConsoleState) (op : LampOp) : ConsoleState :=
  match op with
  | .setColor rgb => (Console.set_color rgb st).1
  | .setBrightness b => (Console.set_brightness b st).1
  | .setState s => Console.set_state s st
  | .flash n => Console.flash n st
  | .pulsate n secs => Console.pulsate n secs st

/-- The stored fields of a `CherrySwitch` (`switch.py`); the
`gpiozero.Button` object is external hardware access and holds no state
read by these methods. -/
structure CherrySwitch where
  pin : ℤ
  state : Bool
  previous_state : Bool
  can_change : Bool
deriving DecidableEq

namespace CherrySwitch

/-- `CherrySwitch.__init__`: `_state = False`,
`_previous_state = True  # So that we trigger a change the first time`,
`_can_change = True`. -/
def init (pin : ℤ) : CherrySwitch :=
  ⟨pin, false, true, true⟩

/-- `CherrySwitch.change_permitted`: `return True` ("always allow it for
now"). -/
def change_permitted (_s : CherrySwitch) : Bool :=
  true

/-- `CherrySwitch.change_state`: if permitted, simultaneous assignment
`self._previous_state, self._state = self._state, not self._state`. -/
def change_state (s : CherrySwitch) : CherrySwitch :=
  if s.change_permitted then
    { s with previous_state := s.state, state := !s.state }
  else s

/-- `CherrySwitch.state_changed`: `return self._state == self._previous_state`
(an equality, despite the docstring; and no mutation, despite the
docstring's claimed side effect). -/
def state_changed (s : CherrySwitch) : Bool :=
  s.state == s.previous_state

end CherrySwitch

/-- The public operations of a constructed `CherrySwitch`. -/
inductive SwitchOp where
  | changeState
  | stateChanged
  | changePermitted

/-- State after one public call: `state_changed` and `change_permitted`
are queries and mutate nothing. -/
def applySwitchOp (s : CherrySwitch) (op : SwitchOp) : CherrySwitch :=
  match op with
  | .changeState => s.change_state
  | .stateChanged => s
  | .changePermitted => s

/-- `check_color` from `client.py`, as a function of the remote payload's
first record value `E` (already parsed by `int(...)`): decode, compare with
`get_color()`, and `set_color` only on mismatch.  Result: the lamp state
after the call, paired with whether `set_color` was invoked. -/
def check_color (E : ℤ) (st : ConsoleState) : ConsoleState × Bool :=
  let current_color := rgb_decode E
  if current_color ≠ Console.get_color st then
    ((Console.set_color current_color st).1, true)
  else (st, false)

/-- `trigger_color_change` from `client.py`, as a function of the random
draw index `i`: pick a suggestion from the palette, apply it with
`set_color`, and post `rgb_encode(new_color)` to the remote store.  Result:
the lamp state after the call paired with the posted encoded value; `none`
if `random.choice` raised. -/
def trigger_color_change (i : ℕ) (st : ConsoleState) :
    Option (ConsoleState × ℤ) :=
  match suggest_rgb (Console.get_color st) i with
  | none => none
  | some new_color =>
      some ((Console.set_color new_color st).1, rgb_encode new_color)

/-! ## Helper lemmas -/

/-- `channelOk` decides membership of the channel in `[0, 255]`. -/
lemma channelOk_iff (v : ℤ) : channelOk v = true ↔ 0 ≤ v ∧ v ≤ 255 := by
  unfold channelOk
  split
  case isTrue h => simp only [Bool.false_eq_true, false_iff]; omega
  case isFalse h => simp only [true_iff]; omega

/-- `validate_color` decides that all three channels are in `[0, 255]`. -/
lemma validate_color_iff (rgb : Color) :
    validate_color rgb = true ↔
      0 ≤ rgb.1 ∧ rgb.1 ≤ 255 ∧ 0 ≤ rgb.2.1 ∧ rgb.2.1 ≤ 255 ∧
      0 ≤ rgb.2.2 ∧ rgb.2.2 ≤ 255 := by
  unfold validate_color
  simp [Bool.and_eq_true, channelOk_iff, and_assoc]

/-- `validate_brightness` decides membership in `[0, 1]`. -/
lemma validate_brightness_iff (b : ℚ) :
    validate_brightness b = true ↔ 0 ≤ b ∧ b ≤ 1 := by
  unfold validate_brightness
  split
  case isTrue h =>
    simp only [Bool.false_eq_true, false_iff]
    intro hc
    rcases h with h | h
    · exact absurd h (not_lt.mpr hc.1)
    · exact absurd h (not_lt.mpr hc.2)
  case isFalse h =>
    push_neg at h
    simp only [true_iff]
    exact h

/-- Every value produced by `rgb_decode` passes `validate_color`. -/
lemma validate_rgb_decode (E : ℤ) : validate_color (rgb_decode E) = true := by
  rw [validate_color_iff]
  unfold rgb_decode
  refine ⟨?_, ?_, ?_, ?_, ?_, ?_⟩ <;> simp only [] <;> omega

/-- Every palette entry passes `validate_color`. -/
lemma validate_colors_mem : ∀ c ∈ colors, validate_color c = true := by decide

/-- `suggest_rgb`, for every current color and every draw, succeeds with a
palette member different from the current color. -/
lemma suggest_rgb_spec (current : Color) (i : ℕ) :
    ∃ c, suggest_rgb current i = some c ∧ c ∈ colors ∧ c ≠ current := by
  set l := colors.filter (fun color => decide (color ≠ current)) with hl
  have hne : l ≠ [] := by
    have hx : ∃ x ∈ colors, x ≠ current := by
      by_cases h : current = (255, 100, 0)
      · exact ⟨(50, 255, 255), by decide, by subst h; decide⟩
      · exact ⟨(255, 100, 0), by decide, fun hc => h hc.symm⟩
    obtain ⟨x, hx₁, hx₂⟩ := hx
    have : x ∈ l := by
      rw [hl, List.mem_filter]
      exact ⟨hx₁, by simpa using hx₂⟩
    exact List.ne_nil_of_mem this
  have hpos : 0 < l.length := List.length_pos.mpr hne
  have hlt : i % l.length < l.length := Nat.mod_lt _ hpos
  refine ⟨l[i % l.length], ?_, ?_⟩
  · unfold suggest_rgb choice
    rw [← hl]
    exact List.getElem?_eq_getElem hlt
  · have hmem : l[i % l.length] ∈ l := List.getElem_mem hlt
    obtain ⟨h1, h2⟩ := List.mem_filter.mp hmem
    exact ⟨h1, by simpa using h2⟩

/-- `flash` leaves the state unchanged for `n = 0` and otherwise only turns
the power state on. -/
lemma flash_spec (n : ℕ) (st : ConsoleState) :
    Console.flash n st = if n = 0 then st else Console.set_state true st := by
  induction n with
  | zero => rfl
  | succ m ih =>
    unfold Console.flash at ih ⊢
    rw [List.range_succ, List.foldl_append, ih]
    rcases m with _ | m <;> rfl

/-! ## Claims -/

/-- C1: for every color whose channels are integers in `[0, 255]`,
`rgb_decode (rgb_encode c) = c`; moreover `rgb_encode` lands in the 24-bit
range and `rgb_encode (rgb_decode v) = v` on that range, so the pair is a
bijection between valid colors and 24-bit integers. -/
theorem C1_encode_decode_roundtrip :
    (∀ r g b : ℤ, 0 ≤ r → r ≤ 255 → 0 ≤ g → g ≤ 255 → 0 ≤ b → b ≤ 255 →
      rgb_decode (rgb_encode (r, g, b)) = (r, g, b) ∧
      0 ≤ rgb_encode (r, g, b) ∧ rgb_encode (r, g, b) < 2 ^ 24) ∧
    (∀ v : ℤ, 0 ≤ v → v < 2 ^ 24 → rgb_encode (rgb_decode v) = v) := by
  constructor
  · intro r g b hr hr' hg hg' hb hb'
    unfold rgb_decode rgb_encode
    simp only [Prod.mk.injEq]
    refine ⟨⟨?_, ?_, ?_⟩, ?_, ?_⟩ <;> omega
  · intro v hv hv'
    unfold rgb_decode rgb_encode
    simp only
    omega

/-- Witness for C1 at the concrete color `(12, 34, 56)`. -/
theorem C1_witness :
    rgb_decode (rgb_encode (12, 34, 56)) = (12, 34, 56) :=
  (C1_encode_decode_roundtrip.1 12 34 56 (by decide) (by decide) (by decide)
    (by decide) (by decide) (by decide)).1

/-- C9: for every nonnegative integer `v`, `rgb_decode v` is defined (the
embedding is a total function), agrees with `rgb_decode (v % 2 ^ 24)`, and
every channel of the result lies in `[0, 255]`. -/
theorem C9_decode_total_masked (v : ℕ) :
    rgb_decode (v : ℤ) = rgb_decode ((v : ℤ) % 2 ^ 24) ∧
    (0 ≤ (rgb_decode (v : ℤ)).1 ∧ (rgb_decode (v : ℤ)).1 ≤ 255 ∧
     0 ≤ (rgb_decode (v : ℤ)).2.1 ∧ (rgb_decode (v : ℤ)).2.1 ≤ 255 ∧
     0 ≤ (rgb_decode (v : ℤ)).2.2 ∧ (rgb_decode (v : ℤ)).2.2 ≤ 255) := by
  unfold rgb_decode
  simp only [Prod.mk.injEq]
  refine ⟨⟨?_, ?_, ?_⟩, ?_, ?_, ?_, ?_, ?_, ?_⟩ <;> omega

/-- C7: for every current color and every outcome of the random draw,
`suggest_rgb` returns a member of the 13-entry palette that is not equal
(structurally — Python tuple `!=` is value equality) to the current
color. -/
theorem C7_suggest_in_palette_ne_current (current : Color) (i : ℕ) :
    ∃ c, suggest_rgb current i = some c ∧ c ∈ colors ∧ c ≠ current :=
  suggest_rgb_spec current i

/-- C2 counterexample: starting from the power-off state, `flash 0` leaves
the lamp off — it does not end in the power-on state, because the guard
`if not self.get_state:` tests the (always truthy) bound method object and
never runs `set_state(True)`. -/
theorem C2_counterexample :
    (Console.flash 0 { rgb := (0, 0, 0), brightness := 1, state := false }).state
      ≠ true := by decide

/-- C2 (amended): for every starting power state, `flash n` ends in the
power-on state for `n ∈ {1, 5}`; for `n = 0` the whole stored state (power
state included) is unchanged. -/
theorem C2_flash_amended :
    (∀ st : ConsoleState,
      (Console.flash 1 st).state = true ∧ (Console.flash 5 st).state = true) ∧
    (∀ st : ConsoleState, Console.flash 0 st = st) := by
  refine ⟨fun st => ⟨?_, ?_⟩, fun st => rfl⟩ <;> rw [flash_spec] <;> rfl

/-- C3: `set_color` raises exactly when some channel of its argument is
outside `[0, 255]`, `set_brightness` raises exactly when its argument is
outside `[0, 1]`, and a raising call leaves the whole stored snapshot
(color, brightness, power state) at its prior value. -/
theorem C3_mutator_errors :
    ∀ (st : ConsoleState) (rgb : Color) (b : ℚ),
      ((Console.set_color rgb st).2 = true ↔
        ¬ (0 ≤ rgb.1 ∧ rgb.1 ≤ 255 ∧ 0 ≤ rgb.2.1 ∧ rgb.2.1 ≤ 255 ∧
           0 ≤ rgb.2.2 ∧ rgb.2.2 ≤ 255)) ∧
      ((Console.set_color rgb st).2 = true → (Console.set_color rgb st).1 = st) ∧
      ((Console.set_brightness b st).2 = true ↔ ¬ (0 ≤ b ∧ b ≤ 1)) ∧
      ((Console.set_brightness b st).2 = true → (Console.set_brightness b st).1 = st) := by
  intro st rgb b
  refine ⟨?_, ?_, ?_, ?_⟩
  · rw [← validate_color_iff]
    unfold Console.set_color
    split
    case isTrue h => simpa using h
    case isFalse h => simpa using not_not.mp (by simpa using h)
  · unfold Console.set_color
    split
    case isTrue h => intro _; rfl
    case isFalse h => intro hh; exact absurd hh (by simp)
  · rw [← validate_brightness_iff]
    unfold Console.set_brightness
    split
    case isTrue h => simpa using h
    case isFalse h => simpa using not_not.mp (by simpa using h)
  · unfold Console.set_brightness
    split
    case isTrue h => intro _; rfl
    case isFalse h => intro hh; exact absurd hh (by simp)

/-- Witness for C3: `set_color (256, 0, 0)` raises and leaves the snapshot
unchanged. -/
theorem C3_witness :
    (Console.set_color (256, 0, 0) ⟨(0, 0, 0), 1, true⟩).1 = ⟨(0, 0, 0), 1, true⟩ :=
  (C3_mutator_errors ⟨(0, 0, 0), 1, true⟩ (256, 0, 0) 2).2.1 (by decide)

/-- C4 evaluation at the failing input: a freshly constructed
`CherrySwitch` (any pin, here 1) has `_state = False` and
`_previous_state = True`, so the first `state_changed()` call returns
`False == True`, i.e. `False` — not `True` as the claim (and the method's
own docstring and the constructor's comment) state. -/
theorem C4_first_check_eval :
    CherrySwitch.state_changed (CherrySwitch.init 1) = false := rfl

/-- Running a `CherrySwitch` from construction through a sequence of public
calls. -/
def runSwitch (pin : ℤ) (ops : List SwitchOp) : CherrySwitch :=
  ops.foldl applySwitchOp (CherrySwitch.init pin)

/-- The seeded-mismatch invariant is preserved by every public call. -/
lemma switch_inv (ops : List SwitchOp) (s : CherrySwitch)
    (h : s.previous_state = !s.state) :
    (ops.foldl applySwitchOp s).previous_state = !(ops.foldl applySwitchOp s).state := by
  induction ops generalizing s with
  | nil => exact h
  | cons op rest ih =>
    simp only [List.foldl_cons]
    apply ih
    cases op
    case changeState =>
      simp [applySwitchOp, CherrySwitch.change_state, CherrySwitch.change_permitted]
    case stateChanged => exact h
    case changePermitted => exact h

/-- C10: in every reachable state of a `CherrySwitch`, the stored previous
state is the negation of the current state, and therefore `state_changed`
(which compares them for equality and mutates nothing) returns `false`. -/
theorem C10_state_changed_always_false (pin : ℤ) (ops : List SwitchOp) :
    (runSwitch pin ops).previous_state = !(runSwitch pin ops).state ∧
    CherrySwitch.state_changed (runSwitch pin ops) = false := by
  unfold runSwitch
  have h := switch_inv ops (CherrySwitch.init pin) rfl
  refine ⟨h, ?_⟩
  unfold CherrySwitch.state_changed
  rw [h]
  cases (ops.foldl applySwitchOp (CherrySwitch.init pin)).state <;> rfl

/-- Running a constructed `Console` through a sequence of public calls. -/
def runLamp (st : ConsoleState) (ops : List LampOp) : ConsoleState :=
  ops.foldl applyOp st

/-- The invariant of C5: every stored channel in `[0, 255]` and the stored
brightness in `[0, 1]`. -/
def stateInRange (st : ConsoleState) : Prop :=
  (0 ≤ st.rgb.1 ∧ st.rgb.1 ≤ 255 ∧ 0 ≤ st.rgb.2.1 ∧ st.rgb.2.1 ≤ 255 ∧
   0 ≤ st.rgb.2.2 ∧ st.rgb.2.2 ≤ 255) ∧
  0 ≤ st.brightness ∧ st.brightness ≤ 1

/-- Each public operation preserves the range invariant. -/
lemma applyOp_preserves (st : ConsoleState) (op : LampOp)
    (h : stateInRange st) : stateInRange (applyOp st op) := by
  cases op with
  | setColor rgb =>
    show stateInRange (Console.set_color rgb st).1
    unfold Console.set_color
    split
    case isTrue hc => exact h
    case isFalse hc =>
      exact ⟨(validate_color_iff rgb).mp (not_not.mp (by simpa using hc)), h.2⟩
  | setBrightness b =>
    show stateInRange (Console.set_brightness b st).1
    unfold Console.set_brightness
    split
    case isTrue hc => exact h
    case isFalse hc =>
      exact ⟨h.1, (validate_brightness_iff b).mp (not_not.mp (by simpa using hc))⟩
  | setState s => exact h
  | flash n =>
    show stateInRange (Console.flash n st)
    rw [flash_spec]
    split
    · exact h
    · exact h
  | pulsate n secs => exact h

/-- The range invariant holds along any run. -/
lemma runLamp_inRange (ops : List LampOp) (st : ConsoleState)
    (h : stateInRange st) : stateInRange (ops.foldl applyOp st) := by
  induction ops generalizing st with
  | nil => exact h
  | cons op rest ih => exact ih _ (applyOp_preserves st op h)

/-- A successful constructor call yields an in-range state. -/
lemma init_ok_inRange (rgb : Color) (b : ℚ) (s : Bool) (st₀ : ConsoleState)
    (h : Console.init rgb b s = Except.ok st₀) : stateInRange st₀ := by
  unfold Console.init at h
  split at h
  · simp at h
  · split at h
    · simp at h
    · rename_i hc hb
      injection h with h'
      subst h'
      exact ⟨(validate_color_iff rgb).mp (not_not.mp (by simpa using hc)),
             (validate_brightness_iff b).mp (not_not.mp (by simpa using hb))⟩

/-- C5: every `Console` state reachable from a successful constructor call
by a sequence of public operations has each color channel in `[0, 255]` and
the brightness in `[0, 1]`. -/
theorem C5_reachable_in_range (rgb : Color) (brightness : ℚ) (state : Bool)
    (st₀ : ConsoleState)
    (h : Console.init rgb brightness state = Except.ok st₀)
    (ops : List LampOp) : stateInRange (runLamp st₀ ops) :=
  runLamp_inRange ops st₀ (init_ok_inRange rgb brightness state st₀ h)

/-- Witness for C5 on a concrete construction and call sequence. -/
theorem C5_witness :
    stateInRange (runLamp ⟨(0, 0, 0), 1, true⟩
      [LampOp.setColor (10, 20, 30), LampOp.setBrightness 2, LampOp.flash 2]) :=
  C5_reachable_in_range (0, 0, 0) 1 true ⟨(0, 0, 0), 1, true⟩ rfl
    [LampOp.setColor (10, 20, 30), LampOp.setBrightness 2, LampOp.flash 2]

/-- C6: one `check_color` call leaves the lamp's color equal to
`rgb_decode E` (where `E` is the integer parsed from the remote payload's
first record value), invokes `set_color` only when the decoded value
differs from the current color, and on the concrete pull scenario takes a
lamp at `(0, 0, 0)` to `(0, 0, 255)` when the remote holds the encoding of
`(0, 0, 255)`. -/
theorem C6_pull_applies_remote :
    (∀ (E : ℤ) (st : ConsoleState),
      (check_color E st).1.rgb = rgb_decode E ∧
      ((check_color E st).2 = true → rgb_decode E ≠ Console.get_color st)) ∧
    (check_color (rgb_encode (0, 0, 255)) ⟨(0, 0, 0), 1, true⟩).1.rgb
      = (0, 0, 255) := by
  constructor
  · intro E st
    have hcc : check_color E st =
        if rgb_decode E ≠ Console.get_color st then
          ((Console.set_color (rgb_decode E) st).1, true)
        else (st, false) := rfl
    rw [hcc]
    constructor
    · split
      case isTrue hne =>
        unfold Console.set_color
        split
        case isTrue hbad =>
          exact absurd (validate_rgb_decode E) (by simpa using hbad)
        case isFalse hok => rfl
      case isFalse heq => exact (not_ne_iff.mp heq).symm
    · split
      case isTrue hne => intro _; exact hne
      case isFalse heq => intro hh; exact absurd hh (by simp)
  · decide

/-- Witness for C6: in the concrete scenario the decoded remote value
differs from the current color, so `set_color` is invoked. -/
theorem C6_witness :
    rgb_decode (rgb_encode (0, 0, 255)) ≠ Console.get_color ⟨(0, 0, 0), 1, true⟩ :=
  (C6_pull_applies_remote.1 (rgb_encode (0, 0, 255)) ⟨(0, 0, 0), 1, true⟩).2
    (by decide)

/-- C8 counterexample: with the device at `(255, 255, 255)` — which is
itself the palette's White entry — it is not the case that any of the 13
palette entries may be selected: White is filtered out by equality, so no
draw outcome ever selects it. -/
theorem C8_counterexample :
    ¬ (∀ c ∈ colors, ∃ i : ℕ, suggest_rgb (255, 255, 255) i = some c) := by
  intro h
  obtain ⟨i, hi⟩ := h (255, 255, 255) (by decide)
  have hmem : ((255, 255, 255) : Color) ∈
      colors.filter (fun color => decide (color ≠ ((255, 255, 255) : Color))) :=
    List.getElem?_mem hi
  revert hmem
  decide

/-- C8 (amended): one `trigger_color_change` call sets the lamp to a
palette entry different from its prior color and posts `rgb_encode` of that
same entry to the remote store; when the device starts at
`(255, 255, 255)` — the palette's White entry — any of the other 12 palette
entries may be selected (White itself never is, per the counterexample). -/
theorem C8_push_palette :
    (∀ (st : ConsoleState) (i : ℕ), ∃ new_color,
      trigger_color_change i st
        = some ({ st with rgb := new_color }, rgb_encode new_color) ∧
      new_color ∈ colors ∧ new_color ≠ st.rgb) ∧
    (∀ c ∈ colors, c ≠ (255, 255, 255) →
      ∃ i : ℕ, suggest_rgb (255, 255, 255) i = some c) := by
  constructor
  · intro st i
    obtain ⟨c, hc, hmem, hne⟩ := suggest_rgb_spec (Console.get_color st) i
    refine ⟨c, ?_, hmem, hne⟩
    have ht : trigger_color_change i st
        = some ((Console.set_color c st).1, rgb_encode c) := by
      unfold trigger_color_change
      rw [hc]
    rw [ht]
    unfold Console.set_color
    rw [if_neg (by simp [validate_colors_mem c hmem])]
  · intro c hcmem hcne
    have hmem : c ∈
        colors.filter (fun color => decide (color ≠ ((255, 255, 255) : Color))) :=
      List.mem_filter.mpr ⟨hcmem, by simpa using hcne⟩
    obtain ⟨j, hj, hjc⟩ := List.mem_iff_getElem.mp hmem
    refine ⟨j, ?_⟩
    unfold suggest_rgb choice
    rw [Nat.mod_eq_of_lt hj, List.getElem?_eq_getElem hj, hjc]

/-- Witness for C8: the palette entry `(0, 0, 255)` (Blue) can be selected
when the device is at `(255, 255, 255)`. -/
theorem C8_witness :
    ∃ i : ℕ, suggest_rgb (255, 255, 255) i = some (0, 0, 255) :=
  C8_push_palette.2 (0, 0, 255) (by decide) (by decide)

end LampClient
